import Mathlib

/-!
# Verification of the ARC-AGI-3 Engine backend

Shallow embedding of `src/backend/backend.py` (session store, action
execution engine, scorecard aggregator) and `src/backend/game_data_loader.py`
(level provider).  Python dicts are modelled as association lists preserving
insertion order; in-place mutation is modelled by threading an explicit
`BackendState`; a raised exception is modelled by an `Except.error` result
paired with the store state at the moment the exception is raised (earlier
in-place mutations of the dicts persist, exactly as in Python).
-/

namespace ArcEngine

/-- Association-list lookup, modelling Python `d[k]` / `k in d`. -/
def alookup {α : Type} : List (String × α) → String → Option α
  | [], _ => none
  | (k, v) :: rest, key => if k = key then some v else alookup rest key

/-- Association-list update, modelling Python `d[k] = v`: an existing key keeps
its position (Python dicts preserve insertion order), a new key is appended. -/
def ainsert {α : Type} : List (String × α) → String → α → List (String × α)
  | [], key, val => [(key, val)]
  | (k, v) :: rest, key, val =>
      if k = key then (k, val) :: rest else (k, v) :: ainsert rest key val

/-- Models Python `l[-1] = v` / `l[-1] += 1`: rewrite the last element.
On an empty list the source would raise `IndexError`; that state is reachable
by no command sequence (every `GameCard` is created by a reset that immediately
appends one entry to each of its three lists), and is modelled as a no-op. -/
def updLast {α : Type} (f : α → α) : List α → List α
  | [] => []
  | [a] => [f a]
  | a :: b :: rest => a :: updLast f (b :: rest)

/-- A 64x64 grid of 4-bit colors (`frame[0]` in the source). -/
abbrev Grid := List (List Nat)

/-- A frame as passed around by the backend: a singleton list holding a grid
(the source represents frames as `[grid]`). -/
abbrev Frame := List Grid

/-- The per-level data the level provider can hold on disk: `initial.json`
grid and optional `final.json` grid (`none` also covers an empty/absent
`grid` entry, which `get_frame_data` treats identically). -/
structure LevelData where
  initialGrid : Option Grid
  finalGrid : Option Grid

/-- The external level provider (`game_data_loader.game_loader`): available
game ids plus the per game+level stored data. -/
structure Env where
  games : List String
  levels : String → String → Option LevelData

/-- Normalization of a stored grid to 64x64 performed by
`GameDataLoader.get_frame_data`: out-of-range cells default to color 0. -/
def padGrid (g : Grid) : Grid :=
  (List.range 64).map fun y => (List.range 64).map fun x =>
    if y < g.length ∧ x < (g.getD y []).length then (g.getD y []).getD x 0 else 0

/-- `level_data.get(frame_type, {})` selection inside `get_frame_data`. -/
def selectFrame (ld : LevelData) : String → Option Grid
  | "initial" => ld.initialGrid
  | "final" => ld.finalGrid
  | _ => none

/-- `GameDataLoader.get_frame_data`: `None` when the level or the requested
grid is absent or empty, otherwise the singleton `[padded 64x64 grid]`. -/
def get_frame_data (env : Env) (gid lvl ft : String) : Option Frame :=
  match env.levels gid lvl with
  | none => none
  | some ld =>
    match selectFrame ld ft with
    | none => none
    | some grid => if grid = [] then none else some [padGrid grid]

/-- `GameDataLoader.get_game_state`: `(state, score)` pair; `NOT_STARTED`
when `load_level` fails, else `NOT_FINISHED`, score 0 in both cases. -/
def get_game_state (env : Env) (gid lvl : String) : String × Nat :=
  match env.levels gid lvl with
  | none => ("NOT_STARTED", 0)
  | some _ => ("NOT_FINISHED", 0)

/-- The mock fallback frame of `create_frame_from_game_data`:
`color = (x + y) % 16`. -/
def mockFrame : Frame :=
  [(List.range 64).map fun y => (List.range 64).map fun x => (x + y) % 16]

/-- `create_frame_from_game_data`: real frame data, or the mock frame. -/
def create_frame_from_game_data (env : Env) (gid lvl ft : String) : Frame :=
  match get_frame_data env gid lvl ft with
  | some f => f
  | none => mockFrame

/-- One entry of `sessions_db` (the `created_at` timestamp is omitted:
no rule or claim reads it). -/
structure Session where
  game_id : String
  card_id : String
  state : String
  score : Nat
  level : String
  actions_taken : Nat
  current_frame : Frame
deriving DecidableEq

/-- One entry of a scorecard's `cards` dict. -/
structure GameCard where
  game_id : String
  total_plays : Nat
  total_actions : Nat
  scores : List Nat
  states : List String
  actions : List Nat
deriving DecidableEq

/-- One entry of `scorecards_db` (api_key, source_url, tags, opaque payload
and `created_at` are omitted: no rule or claim reads them). -/
structure Scorecard where
  card_id : String
  won : Nat
  played : Nat
  total_actions : Nat
  score : Nat
  cards : List (String × GameCard)
deriving DecidableEq

/-- The two process-wide in-memory stores. -/
structure BackendState where
  scorecards : List (String × Scorecard)
  sessions : List (String × Session)
deriving DecidableEq

/-- The HTTP error responses raised by the backend, plus the uncaught Python
exceptions (`KeyError` on a missing dict key). -/
inductive Err where
  | unknownGame
  | unknownCard
  | unknownGuid
  | invalidSession
  | sessionMismatch
  | scorecardNotFound
  | gameNotFound
  | keyError (key : String)
deriving DecidableEq

/-- The fields of a `FrameResponse` relevant to the rules (the `action_input`
echo dict is reduced to the action id and its `toggled` / `no_op` tags). -/
structure FrameResponse where
  game_id : String
  guid : String
  frame : Frame
  state : String
  score : Nat
  win_score : Nat
  action_id : Nat
  toggled : Bool
  no_op : Bool
deriving DecidableEq

/-- `POST /api/scorecard/open`: create an empty scorecard under a fresh
card id (the `uuid4` call is modelled as the externally supplied `card_id`). -/
def open_scorecard (st : BackendState) (card_id : String) : BackendState :=
  let sc : Scorecard :=
    { card_id := card_id, won := 0, played := 0, total_actions := 0,
      score := 0, cards := [] }
  { st with scorecards := ainsert st.scorecards card_id sc }

/-- The body of `reset_game` after all validation has passed: overwrite the
session under `guid`, then update the scorecard's per-game slice. -/
def reset_core (env : Env) (st : BackendState) (game_id card_id guid : String) :
    BackendState × Except Err FrameResponse :=
  let gs := get_game_state env game_id "level_1"
  let session : Session :=
    { game_id := game_id, card_id := card_id, state := gs.1, score := gs.2,
      level := "level_1", actions_taken := 0,
      current_frame := create_frame_from_game_data env game_id "level_1" "initial" }
  let st1 : BackendState := { st with sessions := ainsert st.sessions guid session }
  match alookup st1.scorecards card_id with
  | none => (st1, .error (.keyError card_id))  -- unreachable: card_id was validated
  | some sc =>
    let freshCard : GameCard :=
      { game_id := game_id, total_plays := 0, total_actions := 0,
        scores := [], states := [], actions := [] }
    let sc1 := if (alookup sc.cards game_id).isNone then
        { sc with cards := ainsert sc.cards game_id freshCard }
      else sc
    match alookup sc1.cards game_id with
    | none => (st1, .error (.keyError game_id))  -- unreachable: just inserted
    | some gc =>
      let gc1 := { gc with
        total_plays := gc.total_plays + 1,
        scores := gc.scores ++ [gs.2],
        states := gc.states ++ [gs.1],
        actions := gc.actions ++ [0] }
      let sc2 := { sc1 with
        cards := ainsert sc1.cards game_id gc1,
        played := sc1.played + 1 }
      let st2 : BackendState :=
        { st1 with scorecards := ainsert st1.scorecards card_id sc2 }
      let resp : FrameResponse :=
        { game_id := game_id, guid := guid,
          frame := create_frame_from_game_data env game_id "level_1" "initial",
          state := gs.1, score := gs.2, win_score := 100,
          action_id := 0, toggled := false, no_op := false }
      (st2, .ok resp)

/-- `POST /api/cmd/RESET`: validation (unknown game, unknown card, unknown
supplied guid) precedes every store mutation; the `uuid4` for an omitted guid
is modelled as the externally supplied `freshGuid`. -/
def reset_game (env : Env) (st : BackendState) (game_id card_id : String)
    (guidOpt : Option String) (freshGuid : String) :
    BackendState × Except Err FrameResponse :=
  if ¬ game_id ∈ env.games then (st, .error .unknownGame)
  else if (alookup st.scorecards card_id).isNone then (st, .error .unknownCard)
  else
    match guidOpt with
    | none => reset_core env st game_id card_id freshGuid
    | some g =>
      if (alookup st.sessions g).isNone then (st, .error .unknownGuid)
      else reset_core env st game_id card_id g

/-- One 12x12 click region, as the `blocks` dicts of `execute_action`. -/
structure Block where
  x1 : Nat
  y1 : Nat
  x2 : Nat
  y2 : Nat
deriving DecidableEq

/-- The block layout computed in `execute_action`: 3x3 grid, block size 12,
gap 4, anchored at `(base_x, base_y) = (4, 10)`, the center block
(`block_index == 5`) skipped, leaving 8 active regions. -/
def mkBlocks : List Block :=
  (List.range 3).flatMap fun row =>
    (List.range 3).filterMap fun col =>
      if row * 3 + col + 1 = 5 then none
      else some { x1 := 4 + col * (12 + 4), y1 := 10 + row * (12 + 4),
                  x2 := 4 + col * (12 + 4) + 12 - 1,
                  y2 := 10 + row * (12 + 4) + 12 - 1 }

/-- The 4 fixed win regions (`win_blocks` in `execute_action`). -/
def winBlocks : List Block :=
  [{ x1 := 20, y1 := 10, x2 := 31, y2 := 21 },
   { x1 := 4, y1 := 26, x2 := 15, y2 := 37 },
   { x1 := 36, y1 := 26, x2 := 47, y2 := 37 },
   { x1 := 20, y1 := 42, x2 := 31, y2 := 53 }]

/-- Membership of cell `(y, x)` in block `b` (both the click test and the
per-cell test of the toggle loop use this rectangle check). -/
def inBlockCell (b : Block) (y x : Nat) : Bool :=
  decide (b.y1 ≤ y) && decide (y ≤ b.y2) &&
  decide (b.x1 ≤ x) && decide (x ≤ b.x2)

/-- The cell toggle of the region rule: color 9 becomes 8, color 8 becomes 9,
any other color becomes 9 (one-way normalization). -/
def toggleCell (c : Nat) : Nat := if c = 9 then 8 else 9

/-- Toggle the cells of one row that lie in block `b`; `i` is the column
index of the head of `cs` (the source writes in place only to indices that
exist, which this structural recursion reproduces). -/
def toggleRow (b : Block) (y : Nat) : Nat → List Nat → List Nat
  | _, [] => []
  | i, c :: cs =>
      (if inBlockCell b y i then toggleCell c else c) :: toggleRow b y (i + 1) cs

/-- Toggle the cells of a grid that lie in block `b`; `i` is the row index
of the head of `rows`. -/
def toggleGrid (b : Block) : Nat → Grid → Grid
  | _, [] => []
  | i, row :: rows => toggleRow b i 0 row :: toggleGrid b (i + 1) rows

/-- The toggle loop of `execute_action`: the source mutates only
`current_frame[0]`; trailing grids (never present in practice) are kept. -/
def toggleFrame (f : Frame) (b : Block) : Frame :=
  match f with
  | [] => []
  | g :: rest => toggleGrid b 0 g :: rest

/-- Whether the toggle loop touches at least one cell, i.e. the `toggled`
flag of the source: some cell of the block exists in `frame[0]`. -/
def anyCellInRange (f : Frame) (b : Block) : Bool :=
  let g := f.headD []
  ((List.range (b.y2 + 1 - b.y1)).map fun d => b.y1 + d).any fun y =>
    ((List.range (b.x2 + 1 - b.x1)).map fun d => b.x1 + d).any fun x =>
      decide (y < g.length) && decide (x < (g.getD y []).length)

/-- The win predicate of the region rule: every in-range cell of the 4 win
blocks holds color 8 (out-of-range cells are skipped by the source's bounds
check, i.e. they cannot refute the condition). -/
def winConditionMet (f : Frame) : Bool :=
  let g := f.headD []
  winBlocks.all fun b =>
    ((List.range (b.y2 + 1 - b.y1)).map fun d => b.y1 + d).all fun y =>
      ((List.range (b.x2 + 1 - b.x1)).map fun d => b.x1 + d).all fun x =>
        if y < g.length ∧ x < (g.getD y []).length
        then decide ((g.getD y []).getD x 0 = 8) else true

/-- Outcome of the `for block in blocks` loop of `execute_action` for a
click at `(x, y)`. -/
inductive ClickResult where
  /-- The click hit `b` and at least one cell of `b` is in range: the loop
  toggles `b` and returns. -/
  | toggle (b : Block)
  /-- The click hit a block but no cell of it is in range (`toggled` stays
  false): the loop ends with `clicked_in_block = True` and control falls
  through to the generic rule. -/
  | fallthrough
  /-- The click hit no block: the no-op branch runs. -/
  | outside
deriving DecidableEq

/-- The `for block in blocks` loop: first block containing the click wins;
`clicked_in_block` persists across iterations. -/
def classify_click (blocks : List Block) (f : Frame) (x y : Nat) : ClickResult :=
  match blocks with
  | [] => .outside
  | b :: rest =>
    if inBlockCell b y x then
      if anyCellInRange f b then .toggle b
      else
        match classify_click rest f x y with
        | .outside => .fallthrough
        | r => r
    else classify_click rest f x y

/-- The toggle branch of `execute_action` (lines 380-487): toggle the block,
bump the action counters, test the win predicate, and answer with the toggled
frame.  The two `KeyError` exits model `scorecards_db[card_id]` /
`scorecard["cards"][game_id]` lookups on missing keys (unreachable from any
state produced by the command surface); the session mutations that precede
them persist, as in Python. -/
def toggle_flow (st : BackendState) (game_id guid : String) (session : Session)
    (b : Block) (action_id : Nat) : BackendState × Except Err FrameResponse :=
  let cf := toggleFrame session.current_frame b
  let session1 := { session with
    current_frame := cf, actions_taken := session.actions_taken + 1 }
  match alookup st.scorecards session.card_id with
  | none => ({ st with sessions := ainsert st.sessions guid session1 },
             .error (.keyError session.card_id))
  | some sc =>
    match alookup sc.cards game_id with
    | none => ({ st with sessions := ainsert st.sessions guid session1 },
               .error (.keyError game_id))
    | some gc =>
      let gc1 := { gc with
        total_actions := gc.total_actions + 1,
        actions := updLast (fun n => n + 1) gc.actions }
      let win := winConditionMet cf
      -- the source's win/non-win branches, merged into one parametrized exit
      -- (the non-win branch changes neither the session's state/score nor the
      -- recorded play's score/state, and does not touch won / card score)
      let session2 := if win then { session1 with state := "WIN", score := 1 }
        else session1
      let gc2 := if win then
          { gc1 with
            scores := updLast (fun _ => 1) gc1.scores,
            states := updLast (fun _ => "WIN") gc1.states }
        else gc1
      let sc1 := { sc with
        cards := ainsert sc.cards game_id gc2,
        total_actions := sc.total_actions + 1,
        won := if win then sc.won + 1 else sc.won,
        score := if win then 1 else sc.score }
      let st2 : BackendState := { st with
        sessions := ainsert st.sessions guid session2,
        scorecards := ainsert st.scorecards session.card_id sc1 }
      let resp : FrameResponse :=
        { game_id := game_id, guid := guid, frame := cf,
          state := if win then "WIN" else session1.state,
          score := if win then 1 else session1.score, win_score := 100,
          action_id := action_id, toggled := true, no_op := false }
      (st2, .ok resp)

/-- The grid coordinates `(y, x)` scanned by the generic rule's two 64x64
loops. -/
def gridCoords : List (Nat × Nat) :=
  (List.range 64).flatMap fun y => (List.range 64).map fun x => (y, x)

/-- The per-cell bounds guard of the generic rule's scan:
`y < len(current_frame[0]) and x < len(current_frame[0][y])`. -/
def cellInRange (cur : Grid) (p : Nat × Nat) : Bool :=
  decide (p.1 < cur.length) && decide (p.2 < (cur.getD p.1 []).length)

/-- The reference color used by the generic rule: the final grid's cell, or
color 0 when the reference lacks that cell. -/
def finAt (fin : Grid) (p : Nat × Nat) : Nat :=
  if p.1 < fin.length ∧ p.2 < (fin.getD p.1 []).length
  then (fin.getD p.1 []).getD p.2 0 else 0

/-- Whether an in-range cell of the current grid equals the reference. -/
def cellMatches (cur fin : Grid) (p : Nat × Nat) : Bool :=
  cellInRange cur p && decide ((cur.getD p.1 []).getD p.2 0 = finAt fin p)

/-- `correct_cells` of the generic rule: the number of scanned in-range cells
equal to the reference. -/
def correct_cells (cur fin : Grid) : Nat := gridCoords.countP (cellMatches cur fin)

/-- `total_cells` of the generic rule: the number of scanned in-range cells. -/
def total_cells (cur : Grid) : Nat := gridCoords.countP (cellInRange cur)

/-- `matches_final` of the generic rule's win check: every in-range cell
equals the reference (the `break`s only shortcut this conjunction). -/
def matches_final (cur fin : Grid) : Bool :=
  gridCoords.all fun p =>
    !(cellInRange cur p) || decide ((cur.getD p.1 []).getD p.2 0 = finAt fin p)

/-- The generic branch of `execute_action` (lines 507-601).  The score when a
final reference exists is `int(correct_cells / total_cells * 100)`: for every
frame the engine stores, `total_cells = 4096` and `correct / 4096 * 100` is a
dyadic rational below `2^53` that Python's float arithmetic computes exactly,
so truncation equals the natural-number division used here. -/
def generic_flow (env : Env) (st : BackendState) (game_id guid : String)
    (session : Session) (action_id : Nat) :
    BackendState × Except Err FrameResponse :=
  let session1 := { session with actions_taken := session.actions_taken + 1 }
  let level := session.level
  let cf := session.current_frame
  let finalData := get_frame_data env game_id level "final"
  let score1 :=
    match finalData with
    | some fd =>
      if fd ≠ [] ∧ cf ≠ [] then
        let finF := fd.headD []
        let cur := cf.headD []
        let t := total_cells cur
        if t > 0 then correct_cells cur finF * 100 / t
        else session.score + 1
      else session.score + 1
    | none => session.score + 1
  let session2 := { session1 with score := score1 }
  match alookup st.scorecards session.card_id with
  | none =>
      ({ st with sessions := ainsert st.sessions guid session2 },
       .error (.keyError session.card_id))
  | some sc =>
    match alookup sc.cards game_id with
    | none =>
        ({ st with sessions := ainsert st.sessions guid session2 },
         .error (.keyError game_id))
    | some gc =>
      let gc1 := { gc with
        total_actions := gc.total_actions + 1,
        actions := updLast (fun n => n + 1) gc.actions,
        scores := updLast (fun _ => score1) gc.scores }
      let winNow : Bool :=
        match finalData with
        | some fd =>
            decide (fd ≠ []) &&
            (decide (cf = []) || matches_final (cf.headD []) (fd.headD []))
        | none => false
      -- the source's win/non-win branches, merged into one parametrized exit
      let newState := if winNow then "WIN" else "NOT_FINISHED"
      let session3 := { session2 with
        state := newState,
        score := if winNow then 1 else score1 }
      let gc2 := { gc1 with states := updLast (fun _ => newState) gc1.states }
      let sc1 := { sc with
        cards := ainsert sc.cards game_id gc2,
        won := if winNow then sc.won + 1 else sc.won,
        score := if winNow then 1 else sc.score,
        total_actions := sc.total_actions + 1 }
      let frame_data := create_frame_from_game_data env game_id level
        (if newState = "WIN" then "final" else "initial")
      let session4 := { session3 with current_frame := frame_data }
      let st2 : BackendState := { st with
        sessions := ainsert st.sessions guid session4,
        scorecards := ainsert st.scorecards session.card_id sc1 }
      let resp : FrameResponse :=
        { game_id := game_id, guid := guid, frame := frame_data,
          state := newState, score := if winNow then 1 else score1,
          win_score := 100, action_id := action_id,
          toggled := false, no_op := false }
      (st2, .ok resp)

/-- `execute_action`: validate the session, then dispatch to the region-toggle
rule (action id 6 with coordinates hitting a block) or the generic rule.  The
`.keyError "win_score"` exit models the source's no-op branch, which builds its
response from `session["win_score"]` — a key no reset or action ever stores —
and therefore raises `KeyError` instead of answering. -/
def execute_action (env : Env) (st : BackendState) (game_id guid : String)
    (action_id : Nat) (action_data : Option (Nat × Nat)) :
    BackendState × Except Err FrameResponse :=
  match alookup st.sessions guid with
  | none => (st, .error .invalidSession)
  | some session =>
    if session.game_id ≠ game_id then (st, .error .sessionMismatch)
    else
      match action_data with
      | some (x, y) =>
        if action_id = 6 then
          let cf := session.current_frame
          if cf ≠ [] ∧ y < (cf.headD []).length ∧ x < ((cf.headD []).getD y []).length
          then
            match classify_click mkBlocks cf x y with
            | .toggle b => toggle_flow st game_id guid session b action_id
            | .outside => (st, .error (.keyError "win_score"))
            | .fallthrough => generic_flow env st game_id guid session action_id
          else generic_flow env st game_id guid session action_id
        else generic_flow env st game_id guid session action_id
      | none => generic_flow env st game_id guid session action_id

/-- The summary answered by `GET /api/scorecard/card_id/game_id`
(untouched pass-through fields omitted). -/
structure GameSummary where
  card_id : String
  won : Nat
  played : Nat
  total_actions : Nat
  score : Nat
  cards : List (String × GameCard)
deriving DecidableEq

/-- `get_scorecard_for_game`: 404 when the card or the game slice is absent;
otherwise `won` is recomputed from the GameCard's own state list. -/
def get_scorecard_for_game (st : BackendState) (card_id game_id : String) :
    Except Err GameSummary :=
  match alookup st.scorecards card_id with
  | none => .error .scorecardNotFound
  | some sc =>
    match alookup sc.cards game_id with
    | none => .error .gameNotFound
    | some gc =>
      let won := if gc.states ≠ [] then gc.states.countP (fun s => s = "WIN") else 0
      .ok { card_id := sc.card_id, won := won, played := gc.total_plays,
            total_actions := gc.total_actions,
            score := if won > 0 then 1 else 0,
            cards := [(game_id, gc)] }

/-- The abstract command surface reaching the stores. -/
inductive Command where
  /-- `POST /api/scorecard/open` with the generated card id. -/
  | openCard (card_id : String)
  /-- `POST /api/cmd/RESET` with the generated fresh guid. -/
  | reset (game_id card_id : String) (guid : Option String) (fresh : String)
  /-- `POST /api/cmd/ACTION1..6`. -/
  | act (game_id guid : String) (action_id : Nat) (action_data : Option (Nat × Nat))

/-- Effect of one command on the stores (responses discarded). -/
def stepCommand (env : Env) (st : BackendState) : Command → BackendState
  | .openCard cid => open_scorecard st cid
  | .reset gid cid g f => (reset_game env st gid cid g f).1
  | .act gid g aid d => (execute_action env st gid g aid d).1

/-- The empty stores at process start. -/
def initState : BackendState := { scorecards := [], sessions := [] }

/-- The stores after a sequence of commands from process start. -/
def runCommands (env : Env) (cmds : List Command) : BackendState :=
  cmds.foldl (stepCommand env) initState

/-- The per-game-card bookkeeping invariant: the three per-play lists all
have length `total_plays`. -/
def gameCardOk (gc : GameCard) : Prop :=
  gc.scores.length = gc.total_plays ∧ gc.states.length = gc.total_plays ∧
  gc.actions.length = gc.total_plays

/-- Every game card of a scorecard satisfies `gameCardOk`. -/
def scOk (sc : Scorecard) : Prop :=
  ∀ gid gc, alookup sc.cards gid = some gc → gameCardOk gc

/-- Every scorecard of the stores satisfies `scOk`. -/
def cardsOk (st : BackendState) : Prop :=
  ∀ cid sc, alookup st.scorecards cid = some sc → scOk sc

/-! ## Concrete environments and traces used by witnesses and counterexamples -/

/-- An environment whose level provider has no data at all: every frame is the
mock fallback and every generic action takes the `+1` fallback scoring. -/
def envNoLevels : Env := { games := ["g1", "g2"], levels := fun _ _ => none }

/-- Stores after opening card `c1` and resetting game `g1` into session `s1`
under `envNoLevels`. -/
def stBase : BackendState :=
  runCommands envNoLevels [.openCard "c1", .reset "g1" "c1" none "s1"]

/-- The session `stBase` holds under guid `s1`. -/
def sessionBase : Session :=
  { game_id := "g1", card_id := "c1", state := "NOT_STARTED", score := 0,
    level := "level_1", actions_taken := 0, current_frame := mockFrame }

/-- The per-game card `stBase` holds for `g1` under card `c1`. -/
def gcBase : GameCard :=
  { game_id := "g1", total_plays := 1, total_actions := 0,
    scores := [0], states := ["NOT_STARTED"], actions := [0] }

/-- The stores reached from `stBase` after `n` further generic fallback
actions (no final reference exists, so each action adds 1 to the score). -/
def fallbackState (n : Nat) : BackendState :=
  { scorecards := [("c1",
      { card_id := "c1", won := 0, played := 1, total_actions := n, score := 0,
        cards := [("g1",
          { game_id := "g1", total_plays := 1, total_actions := n,
            scores := [n], states := ["NOT_FINISHED"], actions := [n] })] })],
    sessions := [("s1",
      { game_id := "g1", card_id := "c1", state := "NOT_FINISHED", score := n,
        level := "level_1", actions_taken := n,
        current_frame := mockFrame })] }

/-- Open, reset, then 255 generic actions under `envNoLevels`. -/
def overflowCmds : List Command :=
  [.openCard "c1", .reset "g1" "c1" none "s1"] ++
    Command.act "g1" "s1" 1 none :: List.replicate 254 (Command.act "g1" "s1" 1 none)

/-- The scorecard `stBase` holds under card id `c1`. -/
def scBase : Scorecard :=
  { card_id := "c1", won := 0, played := 1, total_actions := 0, score := 0,
    cards := [("g1", gcBase)] }

/-- A 64x64 grid entirely of color 8. -/
def grid8 : Grid := List.replicate 64 (List.replicate 64 8)

/-- An environment with one game whose level 1 initial grid is all color 8
and which has no final reference grid: the 4 win regions are already red, so
one region toggle of a non-win region yields WIN. -/
def envAll8 : Env :=
  { games := ["g1"],
    levels := fun gid lvl =>
      if gid = "g1" ∧ lvl = "level_1"
      then some { initialGrid := some grid8, finalGrid := none } else none }

/-- Open, reset (all-8 grid), then click region 1 at `(4, 10)`: the 4 win
regions are untouched and all red, so the toggle action yields WIN. -/
def winCmds : List Command :=
  [.openCard "c1", .reset "g1" "c1" none "s1", .act "g1" "s1" 6 (some (4, 10))]

/-- The stores after `winCmds`: session `s1` is in state WIN. -/
def stWon : BackendState := runCommands envAll8 winCmds

/-- `stWon` followed by one generic action (no final reference exists). -/
def stAfterWin : BackendState :=
  runCommands envAll8 (winCmds ++ [.act "g1" "s1" 1 none])

/-- Stores after resetting `g1` under `c1` twice through different guids. -/
def stRebound : BackendState :=
  runCommands envNoLevels
    [.openCard "c1", .reset "g1" "c1" none "s1", .reset "g2" "c1" (some "s1") "x"]

/-- The session stored for `s1` after one fallback generic action. -/
def sessionFall1 : Session :=
  { game_id := "g1", card_id := "c1", state := "NOT_FINISHED", score := 1,
    level := "level_1", actions_taken := 1, current_frame := mockFrame }

/-- The response of that fallback generic action. -/
def respFall1 : FrameResponse :=
  { game_id := "g1", guid := "s1", frame := mockFrame, state := "NOT_FINISHED",
    score := 1, win_score := 100, action_id := 1, toggled := false, no_op := false }

/-- The first (top-left) active region. -/
def blockA : Block := { x1 := 4, y1 := 10, x2 := 15, y2 := 21 }

/-- The winning session stored in `stWon` under `s1`. -/
def sessionWon : Session :=
  { game_id := "g1", card_id := "c1", state := "WIN", score := 1,
    level := "level_1", actions_taken := 1,
    current_frame := toggleFrame [padGrid grid8] blockA }

/-- Stores after opening `c1` and resetting `g1` under `envAll8` (all-8
initial grid, no final reference). -/
def stReady8 : BackendState :=
  runCommands envAll8 [.openCard "c1", .reset "g1" "c1" none "s1"]

/-- The session `stReady8` holds under `s1`. -/
def sessionReady8 : Session :=
  { game_id := "g1", card_id := "c1", state := "NOT_FINISHED", score := 0,
    level := "level_1", actions_taken := 0, current_frame := [padGrid grid8] }

/-- A final reference grid whose first row is color 8 and whose other rows
are color 9: exactly 64 of the 4096 cells of the all-8 grid match it. -/
def gridFinalRaw : Grid :=
  List.replicate 64 8 :: List.replicate 63 (List.replicate 64 9)

/-- Environment with an all-8 initial grid and the `gridFinalRaw` final
reference for game `g1`. -/
def envPartial : Env :=
  { games := ["g1"],
    levels := fun gid lvl =>
      if gid = "g1" ∧ lvl = "level_1"
      then some { initialGrid := some grid8, finalGrid := some gridFinalRaw }
      else none }

/-- Stores after opening card `c1` and resetting `g1` under `envPartial`. -/
def stPartial : BackendState :=
  runCommands envPartial [.openCard "c1", .reset "g1" "c1" none "s1"]

/-- The session `stPartial` holds under guid `s1`. -/
def sessionPartial : Session :=
  { game_id := "g1", card_id := "c1", state := "NOT_FINISHED", score := 0,
    level := "level_1", actions_taken := 0, current_frame := [padGrid grid8] }

/-- The per-game card `stPartial` holds for `g1`. -/
def gcPartial : GameCard :=
  { game_id := "g1", total_plays := 1, total_actions := 0,
    scores := [0], states := ["NOT_FINISHED"], actions := [0] }

/-- The scorecard `stPartial` holds under `c1`. -/
def scPartial : Scorecard :=
  { card_id := "c1", won := 0, played := 1, total_actions := 0, score := 0,
    cards := [("g1", gcPartial)] }

end ArcEngine

namespace ArcEngine

/-! ## Library lemmas about the store primitives -/

theorem alookup_ainsert_self {α : Type} (l : List (String × α)) (k : String) (v : α) :
    alookup (ainsert l k v) k = some v := by
  induction l with
  | nil => simp [ainsert, alookup]
  | cons h t ih =>
    obtain ⟨k', v'⟩ := h
    by_cases hk : k' = k
    · simp [ainsert, alookup, hk]
    · simp [ainsert, alookup, hk, ih]

theorem alookup_ainsert_ne {α : Type} (l : List (String × α)) (k k' : String) (v : α)
    (h : k ≠ k') : alookup (ainsert l k v) k' = alookup l k' := by
  induction l with
  | nil => simp [ainsert, alookup, h]
  | cons hd t ih =>
    obtain ⟨k0, v0⟩ := hd
    by_cases hk : k0 = k
    · subst hk
      simp [ainsert, alookup, h]
    · simp [ainsert, alookup, hk, ih]

theorem updLast_length {α : Type} (f : α → α) (l : List α) :
    (updLast f l).length = l.length := by
  induction l with
  | nil => rfl
  | cons a t ih =>
    cases t with
    | nil => rfl
    | cons b r => simpa [updLast] using ih

theorem getD_mem {α : Type} (l : List α) (i : Nat) (d : α) (h : i < l.length) :
    l.getD i d ∈ l := by
  induction l generalizing i with
  | nil => simp at h
  | cons a t ih =>
    cases i with
    | zero => simp [List.getD]
    | succ j =>
      have hm := ih j (by simpa using h)
      right
      simpa [List.getD] using hm

/-! ## Fallback-scoring trace lemmas -/

/-- One generic action in the no-final-data environment adds 1 to the score
and otherwise reproduces the `fallbackState` shape. -/
theorem fallback_step (n : Nat) :
    (execute_action envNoLevels (fallbackState n) "g1" "s1" 1 none).1 =
      fallbackState (n + 1) := rfl

/-- `k` generic fallback actions add `k` to the score. -/
theorem fallback_iter (k : Nat) : ∀ n : Nat,
    (List.replicate k (Command.act "g1" "s1" 1 none)).foldl
      (stepCommand envNoLevels) (fallbackState n) = fallbackState (n + k) := by
  induction k with
  | zero => intro n; rfl
  | succ k ih =>
    intro n
    rw [List.replicate_succ, List.foldl_cons]
    have h1 : stepCommand envNoLevels (fallbackState n) (Command.act "g1" "s1" 1 none)
        = fallbackState (n + 1) := fallback_step n
    rw [h1, ih (n + 1)]
    have : n + 1 + k = n + (k + 1) := by omega
    rw [this]

/-! ## Claims -/

/-- C2 (code_bug): a valid ACTION6 click at (0,0), outside all 8 regions,
does not answer the tagged no-op frame the spec describes: the source's no-op
branch reads `session["win_score"]`, a key neither `reset_game` nor
`execute_action` ever stores, so it raises `KeyError` (an HTTP 500) instead.
The stores are left unchanged. -/
theorem claim2_noop_click_raises_keyerror :
    execute_action envNoLevels stBase "g1" "s1" 6 (some (0, 0)) =
      (stBase, .error (.keyError "win_score")) := rfl

/-- C3 (code_bug): with no final reference grid, each generic action adds 1 to
the session score without any clamp, so after 255 actions the stored score is
255, outside the claimed invariant interval [0,254] (and outside the
`le=254` bound the source itself declares on `FrameResponse.score`). -/
theorem claim3_fallback_score_overflows :
    (alookup (runCommands envNoLevels overflowCmds).sessions "s1").map
      Session.score = some 255 := by
  have h0 : runCommands envNoLevels overflowCmds =
      (Command.act "g1" "s1" 1 none ::
        List.replicate 254 (Command.act "g1" "s1" 1 none)).foldl
        (stepCommand envNoLevels) stBase := by
    unfold runCommands overflowCmds
    rw [List.foldl_append]
    rfl
  have h2 : stepCommand envNoLevels stBase (Command.act "g1" "s1" 1 none) =
      fallbackState 1 := rfl
  rw [h0, List.foldl_cons, h2, fallback_iter 254 1]
  rfl

/-- C1 (counterexample): WIN is not terminal.  From an all-8 initial grid,
toggling region 1 puts session `s1` in state WIN; the very next generic
action (action id 1) recomputes the state from scratch and, having no final
reference grid, stores NOT_FINISHED — the state leaves WIN. -/
theorem claim1_win_not_terminal_counterexample :
    (alookup stWon.sessions "s1").map Session.state = some "WIN" ∧
    (alookup stAfterWin.sessions "s1").map Session.state =
      some "NOT_FINISHED" := by
  exact ⟨rfl, rfl⟩

/-- C4 (counterexample): a session's game_id is not immutable: resetting the
existing session `s1` (created for game `g1`) with the different valid game
id `g2` rebinds the stored session to `g2`. -/
theorem claim4_game_id_mutable_counterexample :
    (alookup stBase.sessions "s1").map Session.game_id = some "g1" ∧
    (alookup stRebound.sessions "s1").map Session.game_id = some "g2" :=
  ⟨rfl, rfl⟩

/-- C4 (amended): action commands reject a mismatched game_id without any
mutation, but a reset that supplies an existing guid together with any valid
game_id overwrites the whole session, rebinding its game_id to the command's
game_id. -/
theorem claim4_reset_rebinds_game_id (env : Env) (st : BackendState)
    (gid cid guid fresh : String) (s : Session)
    (hg : gid ∈ env.games)
    (hc : (alookup st.scorecards cid).isSome)
    (hs : alookup st.sessions guid = some s) :
    (alookup (reset_game env st gid cid (some guid) fresh).1.sessions guid).map
      Session.game_id = some gid := by
  obtain ⟨sc, hsc⟩ := Option.isSome_iff_exists.mp hc
  simp only [reset_game, hg, not_true_eq_false, if_false, hsc, Option.isNone_some,
    Bool.false_eq_true, hs, reset_core]
  split <;> simp [alookup_ainsert_self]

/-- C4 (amended) witness: rebinding `s1` from `g1` to `g2` in the concrete
base stores. -/
theorem claim4_reset_rebinds_game_id_witness :
    (alookup (reset_game envNoLevels stBase "g2" "c1" (some "s1") "x").1.sessions
      "s1").map Session.game_id = some "g2" :=
  claim4_reset_rebinds_game_id envNoLevels stBase "g2" "c1" "s1" "x" sessionBase
    (by decide) rfl rfl

/-- C7: every command rejected by validation leaves the stores exactly as
they were: an action with an unknown guid (InvalidSession) or a guid bound to
a different game_id (SessionMismatch), and a reset with an unknown game_id,
an unknown card_id, or an unknown supplied guid, all return the input state
unchanged together with the error. -/
theorem claim7_validation_precedes_mutation :
    (∀ env st gid guid aid dat, alookup st.sessions guid = none →
        execute_action env st gid guid aid dat = (st, .error .invalidSession)) ∧
    (∀ env st gid guid aid dat s, alookup st.sessions guid = some s →
        s.game_id ≠ gid →
        execute_action env st gid guid aid dat = (st, .error .sessionMismatch)) ∧
    (∀ env st gid cid g f, ¬ gid ∈ env.games →
        reset_game env st gid cid g f = (st, .error .unknownGame)) ∧
    (∀ env st gid cid g f, gid ∈ env.games → alookup st.scorecards cid = none →
        reset_game env st gid cid g f = (st, .error .unknownCard)) ∧
    (∀ env st gid cid g f, gid ∈ env.games →
        (alookup st.scorecards cid).isSome → alookup st.sessions g = none →
        reset_game env st gid cid (some g) f = (st, .error .unknownGuid)) := by
  refine ⟨?_, ?_, ?_, ?_, ?_⟩
  · intro env st gid guid aid dat h
    simp [execute_action, h]
  · intro env st gid guid aid dat s h hne
    simp [execute_action, h, hne]
  · intro env st gid cid g f h
    simp [reset_game, h]
  · intro env st gid cid g f hg h
    simp [reset_game, hg, h]
  · intro env st gid cid g f hg hc h
    obtain ⟨sc, hsc⟩ := Option.isSome_iff_exists.mp hc
    simp [reset_game, hg, hsc, h]

/-- C7 witness: each of the five rejection cases at concrete inputs on the
concrete base stores. -/
theorem claim7_validation_precedes_mutation_witness :
    execute_action envNoLevels stBase "g1" "nope" 1 none =
      (stBase, .error .invalidSession) ∧
    execute_action envNoLevels stBase "g2" "s1" 1 none =
      (stBase, .error .sessionMismatch) ∧
    reset_game envNoLevels stBase "zz" "c1" none "f" =
      (stBase, .error .unknownGame) ∧
    reset_game envNoLevels stBase "g1" "nocard" none "f" =
      (stBase, .error .unknownCard) ∧
    reset_game envNoLevels stBase "g1" "c1" (some "ghost") "f" =
      (stBase, .error .unknownGuid) := by
  refine ⟨?_, ?_, ?_, ?_, ?_⟩
  · exact claim7_validation_precedes_mutation.1 envNoLevels stBase "g1" "nope"
      1 none rfl
  · exact claim7_validation_precedes_mutation.2.1 envNoLevels stBase "g2" "s1"
      1 none sessionBase rfl (by decide)
  · exact claim7_validation_precedes_mutation.2.2.1 envNoLevels stBase "zz" "c1"
      none "f" (by decide)
  · exact claim7_validation_precedes_mutation.2.2.2.1 envNoLevels stBase "g1"
      "nocard" none "f" (by decide) rfl
  · exact claim7_validation_precedes_mutation.2.2.2.2 envNoLevels stBase "g1"
      "c1" "ghost" "f" (by decide) rfl rfl

/-- C9: the filtered scorecard get fails with NotFound when the game was
never reset under an existing card, and otherwise recomputes `won` from the
GameCard's own state list, reports the GameCard's `total_plays` and
`total_actions`, and scores 1 exactly when some play won. -/
theorem claim9_filtered_get :
    (∀ st cid gid sc, alookup st.scorecards cid = some sc →
        alookup sc.cards gid = none →
        get_scorecard_for_game st cid gid = .error .gameNotFound) ∧
    (∀ st cid gid sc gc, alookup st.scorecards cid = some sc →
        alookup sc.cards gid = some gc →
        get_scorecard_for_game st cid gid =
          .ok { card_id := sc.card_id,
                won := gc.states.countP (fun s => s = "WIN"),
                played := gc.total_plays,
                total_actions := gc.total_actions,
                score := if gc.states.countP (fun s => s = "WIN") > 0 then 1 else 0,
                cards := [(gid, gc)] }) := by
  constructor
  · intro st cid gid sc h1 h2
    simp [get_scorecard_for_game, h1, h2]
  · intro st cid gid sc gc h1 h2
    by_cases hst : gc.states = []
    · simp [get_scorecard_for_game, h1, h2, hst]
    · simp [get_scorecard_for_game, h1, h2, hst]

/-- Any successful generic action overwrites the session's grid with the
level's final frame when the new state is WIN and with the initial frame
otherwise, and answers that same frame. -/
theorem generic_flow_ok_frame (env : Env) (st : BackendState) (gid guid : String)
    (session : Session) (aid : Nat) (r : FrameResponse)
    (hr : (generic_flow env st gid guid session aid).2 = .ok r) :
    ∀ s', alookup (generic_flow env st gid guid session aid).1.sessions guid = some s' →
      s'.current_frame = create_frame_from_game_data env gid session.level
        (if s'.state = "WIN" then "final" else "initial") ∧
      r.frame = s'.current_frame := by
  unfold generic_flow at hr ⊢
  cases hsc : alookup st.scorecards session.card_id with
  | none =>
    simp only [hsc] at hr
    exact Except.noConfusion hr
  | some sc =>
    cases hgc : alookup sc.cards gid with
    | none =>
      simp only [hsc, hgc] at hr
      exact Except.noConfusion hr
    | some gc =>
      simp only [hsc, hgc] at hr ⊢
      intro s' hs'
      rw [alookup_ainsert_self] at hs'
      obtain rfl := Option.some.inj hs'
      refine ⟨rfl, ?_⟩
      obtain rfl := Except.ok.inj hr.symm
      rfl

/-- C10: after any successful generic-rule action (no coordinate payload, so
action ids 1-5 and payload-less calls all dispatch here), the session's
stored grid is replaced by `create_frame_from_game_data` for the final frame
when the resulting state is WIN and for the initial frame otherwise — any
region toggles accumulated in the session grid are discarded — and the
response carries that replacement frame. -/
theorem claim10_generic_overwrites_frame (env : Env) (st : BackendState)
    (gid guid : String) (aid : Nat) (s : Session) (r : FrameResponse)
    (hs : alookup st.sessions guid = some s)
    (hgid : s.game_id = gid)
    (hok : (execute_action env st gid guid aid none).2 = .ok r) :
    ∀ s', alookup (execute_action env st gid guid aid none).1.sessions guid = some s' →
      s'.current_frame = create_frame_from_game_data env gid s.level
        (if s'.state = "WIN" then "final" else "initial") ∧
      r.frame = s'.current_frame := by
  have he : execute_action env st gid guid aid none =
      generic_flow env st gid guid s aid := by
    simp [execute_action, hs, hgid]
  rw [he] at hok ⊢
  exact generic_flow_ok_frame env st gid guid s aid r hok

/-- C10 witness: the concrete fallback action on the base stores replaces the
session grid with the initial-frame data (the mock frame). -/
theorem claim10_generic_overwrites_frame_witness :
    sessionFall1.current_frame =
      create_frame_from_game_data envNoLevels "g1" sessionBase.level
        (if sessionFall1.state = "WIN" then "final" else "initial") ∧
    respFall1.frame = sessionFall1.current_frame :=
  claim10_generic_overwrites_frame envNoLevels stBase "g1" "s1" 1 sessionBase
    respFall1 rfl rfl rfl sessionFall1 rfl

/-! ## Full-grid lemmas for the generic scan -/

theorem mem_gridCoords {p : Nat × Nat} (hp : p ∈ gridCoords) :
    p.1 < 64 ∧ p.2 < 64 := by
  simp only [gridCoords, List.mem_flatMap, List.mem_map, List.mem_range] at hp
  obtain ⟨y, hy, x, hx, rfl⟩ := hp
  exact ⟨hy, hx⟩

theorem gridCoords_length : gridCoords.length = 4096 := by
  unfold gridCoords
  rw [List.length_flatMap]
  rw [show (List.map (List.length ∘ fun y => List.map (fun x => (y, x)) (List.range 64))
      (List.range 64)) = List.map (fun _ => 64) (List.range 64) from by
    apply List.map_congr_left
    intro a _
    simp]
  rw [List.map_const']
  simp [List.sum_replicate]

theorem cellInRange_of_full {g : Grid} (h1 : g.length = 64)
    (h2 : ∀ r ∈ g, r.length = 64) {p : Nat × Nat} (hp : p ∈ gridCoords) :
    cellInRange g p = true := by
  obtain ⟨hy, hx⟩ := mem_gridCoords hp
  have hrow : (g.getD p.1 []).length = 64 :=
    h2 _ (getD_mem g p.1 [] (by rw [h1]; exact hy))
  simp only [cellInRange, Bool.and_eq_true, decide_eq_true_eq]
  constructor
  · rw [h1]; exact hy
  · rw [hrow]; exact hx

theorem total_cells_full {g : Grid} (h1 : g.length = 64)
    (h2 : ∀ r ∈ g, r.length = 64) : total_cells g = 4096 := by
  unfold total_cells
  rw [List.countP_eq_length.mpr fun p hp => cellInRange_of_full h1 h2 hp,
    gridCoords_length]

theorem correct_cells_full_iff {g F : Grid} (h1 : g.length = 64)
    (h2 : ∀ r ∈ g, r.length = 64) :
    (correct_cells g F = 4096 ↔ matches_final g F = true) := by
  unfold correct_cells matches_final
  rw [← gridCoords_length, List.countP_eq_length, List.all_eq_true]
  refine forall_congr' fun p => forall_congr' fun hp => ?_
  rw [cellMatches, cellInRange_of_full h1 h2 hp]
  simp

/-- C5: a generic-rule action on a session whose 64x64 grid agrees with the
available final reference in exactly `correct_cells` cells yields state WIN
when all 4096 cells agree, and otherwise score
`floor(correct_cells * 100 / 4096)` with state NOT_FINISHED. -/
theorem claim5_generic_scoring (env : Env) (st : BackendState)
    (gid guid : String) (aid : Nat) (s : Session) (G F : Grid)
    (sc : Scorecard) (gc : GameCard)
    (hs : alookup st.sessions guid = some s)
    (hgid : s.game_id = gid)
    (hcf : s.current_frame = [G])
    (hlen : G.length = 64) (hrows : ∀ r ∈ G, r.length = 64)
    (hfin : get_frame_data env gid s.level "final" = some [F])
    (hsc : alookup st.scorecards s.card_id = some sc)
    (hgc : alookup sc.cards gid = some gc) :
    ∀ s', alookup (execute_action env st gid guid aid none).1.sessions guid = some s' →
      (correct_cells G F = 4096 → s'.state = "WIN") ∧
      (0 < correct_cells G F → correct_cells G F < 4096 →
        s'.state = "NOT_FINISHED" ∧ s'.score = correct_cells G F * 100 / 4096) := by
  have he : execute_action env st gid guid aid none =
      generic_flow env st gid guid s aid := by
    simp [execute_action, hs, hgid]
  rw [he]
  unfold generic_flow
  simp only [hsc, hgc, hcf, hfin, List.headD_cons]
  intro s' hs'
  rw [alookup_ainsert_self] at hs'
  obtain rfl := Option.some.inj hs'
  constructor
  · intro h4096
    have hm : matches_final G F = true := (correct_cells_full_iff hlen hrows).mp h4096
    simp [hm]
  · intro hpos hlt
    have hm : matches_final G F = false := by
      by_cases h : matches_final G F = true
      · exact absurd ((correct_cells_full_iff hlen hrows).mpr h) (by omega)
      · simpa using h
    constructor
    · simp [hm]
    · simp [hm, total_cells_full hlen hrows]

/-! ## Toggle-rule lemmas -/

theorem toggleRow_length (b : Block) (y : Nat) : ∀ (i : Nat) (cs : List Nat),
    (toggleRow b y i cs).length = cs.length := by
  intro i cs
  induction cs generalizing i with
  | nil => rfl
  | cons c t ih => simp [toggleRow, ih]

theorem toggleGrid_length (b : Block) : ∀ (i : Nat) (g : Grid),
    (toggleGrid b i g).length = g.length := by
  intro i g
  induction g generalizing i with
  | nil => rfl
  | cons r t ih => simp [toggleGrid, ih]

theorem toggleGrid_rows_length (b : Block) : ∀ (i : Nat) (g : Grid) (r : List Nat),
    r ∈ toggleGrid b i g → ∃ r0 ∈ g, r.length = r0.length := by
  intro i g
  induction g generalizing i with
  | nil =>
    intro r h
    simp [toggleGrid] at h
  | cons r0 t ih =>
    intro r h
    simp only [toggleGrid, List.mem_cons] at h
    rcases h with h | h
    · exact ⟨r0, List.mem_cons_self r0 t, by rw [h, toggleRow_length]⟩
    · obtain ⟨r1, hr1, hl⟩ := ih (i + 1) r h
      exact ⟨r1, List.mem_cons_of_mem _ hr1, hl⟩

theorem toggleRow_getD (b : Block) (y : Nat) : ∀ (cs : List Nat) (i j : Nat),
    j < cs.length →
    (toggleRow b y i cs).getD j 0 =
      if inBlockCell b y (i + j) then toggleCell (cs.getD j 0)
      else cs.getD j 0 := by
  intro cs
  induction cs with
  | nil =>
    intro i j h
    simp at h
  | cons c t ih =>
    intro i j h
    cases j with
    | zero => simp [toggleRow]
    | succ j =>
      have hj : j < t.length := by simpa using h
      simp only [toggleRow, List.getD_cons_succ]
      rw [ih (i + 1) j hj]
      have he : i + 1 + j = i + (j + 1) := by omega
      rw [he]

theorem toggleGrid_getD (b : Block) : ∀ (g : Grid) (i k : Nat),
    k < g.length →
    (toggleGrid b i g).getD k [] = toggleRow b (i + k) 0 (g.getD k []) := by
  intro g
  induction g with
  | nil =>
    intro i k h
    simp at h
  | cons r t ih =>
    intro i k h
    cases k with
    | zero => simp [toggleGrid]
    | succ k =>
      have hk : k < t.length := by simpa using h
      simp only [toggleGrid, List.getD_cons_succ]
      rw [ih (i + 1) k hk]
      have he : i + 1 + k = i + (k + 1) := by omega
      rw [he]

/-- Two applications of the cell toggle restore 8 and 9 and send every other
color to 8. -/
theorem toggleCell_toggleCell (c : Nat) :
    toggleCell (toggleCell c) = if c = 8 ∨ c = 9 then c else 8 := by
  unfold toggleCell
  by_cases h9 : c = 9
  · simp [h9]
  · by_cases h8 : c = 8 <;> simp [h8, h9]

/-- The grid-level round trip of the toggle rule: a double toggle restores
cells that held 8 or 9 and leaves every other cell at 8. -/
theorem double_toggle_cell {g : Grid} {b : Block} {yy xx : Nat}
    (hlen : g.length = 64) (hrows : ∀ r ∈ g, r.length = 64)
    (hcell : inBlockCell b yy xx = true) (hyy : yy < 64) (hxx : xx < 64) :
    ((toggleGrid b 0 (toggleGrid b 0 g)).getD yy []).getD xx 0 =
      if (g.getD yy []).getD xx 0 = 8 ∨ (g.getD yy []).getD xx 0 = 9
      then (g.getD yy []).getD xx 0 else 8 := by
  have h1 : yy < g.length := by rw [hlen]; exact hyy
  have hrow : (g.getD yy []).length = 64 := hrows _ (getD_mem g yy [] h1)
  have h2 : xx < (g.getD yy []).length := by rw [hrow]; exact hxx
  have h1a : yy < (toggleGrid b 0 g).length := by rw [toggleGrid_length]; exact h1
  rw [toggleGrid_getD b _ 0 yy h1a, toggleGrid_getD b g 0 yy h1]
  rw [toggleRow_getD b _ _ 0 xx (by rw [toggleRow_length]; exact h2)]
  rw [toggleRow_getD b _ _ 0 xx h2]
  simp only [Nat.zero_add, hcell, if_true]
  exact toggleCell_toggleCell _

theorem mkBlocks_bounds : ∀ b ∈ mkBlocks,
    b.y1 ≤ b.y2 ∧ b.x1 ≤ b.x2 ∧ b.y2 ≤ 53 ∧ b.x2 ≤ 47 := by decide

theorem anyCellInRange_full {f : Frame} {g : Grid} {b : Block}
    (hf : f = [g]) (hlen : g.length = 64) (hrows : ∀ r ∈ g, r.length = 64)
    (hb : b ∈ mkBlocks) : anyCellInRange f b = true := by
  subst hf
  obtain ⟨hy12, hx12, hy2, hx2⟩ := mkBlocks_bounds b hb
  have hy1 : b.y1 < 64 := by omega
  have hrow : (g.getD b.y1 []).length = 64 :=
    hrows _ (getD_mem g b.y1 [] (by rw [hlen]; exact hy1))
  unfold anyCellInRange
  rw [List.any_eq_true]
  refine ⟨b.y1, ?_, ?_⟩
  · rw [List.mem_map]
    exact ⟨0, by rw [List.mem_range]; omega, by simp⟩
  · rw [List.any_eq_true]
    refine ⟨b.x1, ?_, ?_⟩
    · rw [List.mem_map]
      exact ⟨0, by rw [List.mem_range]; omega, by simp⟩
    · simp only [List.headD_cons, Bool.and_eq_true, decide_eq_true_eq]
      constructor
      · rw [hlen]; omega
      · rw [hrow]; omega

theorem classify_click_toggle_elim : ∀ (blocks : List Block) (f : Frame)
    (x y : Nat) (b : Block),
    classify_click blocks f x y = .toggle b →
    b ∈ blocks ∧ inBlockCell b y x = true := by
  intro blocks
  induction blocks with
  | nil =>
    intro f x y b h
    exact absurd h (by simp [classify_click])
  | cons hd rest ih =>
    intro f x y b h
    unfold classify_click at h
    by_cases hc : inBlockCell hd y x
    · rw [if_pos hc] at h
      by_cases ha : anyCellInRange f hd = true
      · rw [if_pos ha] at h
        injection h with h'
        subst h'
        exact ⟨List.mem_cons_self hd rest, hc⟩
      · rw [if_neg ha] at h
        cases hr : classify_click rest f x y with
        | outside => simp [hr] at h
        | fallthrough => simp [hr] at h
        | toggle b' =>
          simp only [hr] at h
          injection h with h'
          obtain ⟨hm, hib⟩ := ih f x y b' hr
          subst h'
          exact ⟨List.mem_cons_of_mem _ hm, hib⟩
    · rw [if_neg hc] at h
      obtain ⟨hm, hib⟩ := ih f x y b h
      exact ⟨List.mem_cons_of_mem _ hm, hib⟩

theorem classify_click_cases (blocks : List Block) (f : Frame) (x y : Nat)
    (hall : ∀ b ∈ blocks, anyCellInRange f b = true) :
    classify_click blocks f x y = .outside ∨
      ∃ b, classify_click blocks f x y = .toggle b := by
  induction blocks with
  | nil => exact Or.inl rfl
  | cons hd rest ih =>
    unfold classify_click
    by_cases hc : inBlockCell hd y x
    · rw [if_pos hc, if_pos (hall hd (List.mem_cons_self hd rest))]
      exact Or.inr ⟨hd, rfl⟩
    · rw [if_neg hc]
      exact ih fun b hb => hall b (List.mem_cons_of_mem _ hb)

theorem classify_click_congr (blocks : List Block) (f1 f2 : Frame) (x y : Nat)
    (h : ∀ b ∈ blocks, anyCellInRange f1 b = anyCellInRange f2 b) :
    classify_click blocks f1 x y = classify_click blocks f2 x y := by
  induction blocks with
  | nil => rfl
  | cons hd rest ih =>
    unfold classify_click
    rw [h hd (List.mem_cons_self hd rest),
      ih fun b hb => h b (List.mem_cons_of_mem _ hb)]

/-- Every exit of the toggle branch stores under `guid` a session carrying the
toggled frame, the unchanged identifiers, a bumped action counter, and a state
that is either freshly WIN or unchanged. -/
theorem toggle_flow_session (st : BackendState) (gid guid : String)
    (session : Session) (b : Block) (aid : Nat) :
    ∃ s', alookup (toggle_flow st gid guid session b aid).1.sessions guid
        = some s' ∧
      s'.current_frame = toggleFrame session.current_frame b ∧
      s'.game_id = session.game_id ∧
      s'.card_id = session.card_id ∧
      s'.level = session.level ∧
      s'.actions_taken = session.actions_taken + 1 ∧
      (s'.state = "WIN" ∨ s'.state = session.state) := by
  unfold toggle_flow
  cases hsc : alookup st.scorecards session.card_id with
  | none =>
    dsimp only
    exact ⟨_, alookup_ainsert_self _ _ _, rfl, rfl, rfl, rfl, rfl, Or.inr rfl⟩
  | some sc =>
    dsimp only
    cases hgc : alookup sc.cards gid with
    | none =>
      dsimp only
      exact ⟨_, alookup_ainsert_self _ _ _, rfl, rfl, rfl, rfl, rfl, Or.inr rfl⟩
    | some gc =>
      dsimp only
      by_cases hw : winConditionMet (toggleFrame session.current_frame b) = true
      · simp only [hw, if_true]
        exact ⟨_, alookup_ainsert_self _ _ _, rfl, rfl, rfl, rfl, rfl, Or.inl rfl⟩
      · simp only [Bool.not_eq_true] at hw
        simp only [hw, Bool.false_eq_true, if_false]
        exact ⟨_, alookup_ainsert_self _ _ _, rfl, rfl, rfl, rfl, rfl, Or.inr rfl⟩

/-- The dispatch of `execute_action` into the toggle branch for a valid
session, a full frame, in-range coordinates and a classified block hit. -/
theorem execute_action_toggle (env : Env) (st : BackendState)
    (gid guid : String) (x y : Nat) (s : Session) (g : Grid) (b : Block)
    (hs : alookup st.sessions guid = some s)
    (hgid : s.game_id = gid)
    (hcf : s.current_frame = [g])
    (hlen : g.length = 64) (hrows : ∀ r ∈ g, r.length = 64)
    (hx : x ≤ 63) (hy : y ≤ 63)
    (hcl : classify_click mkBlocks s.current_frame x y = .toggle b) :
    execute_action env st gid guid 6 (some (x, y)) =
      toggle_flow st gid guid s b 6 := by
  have hrow : (g.getD y []).length = 64 :=
    hrows _ (getD_mem g y [] (by rw [hlen]; omega))
  have hbound : s.current_frame ≠ [] ∧
      y < (s.current_frame.headD []).length ∧
      x < ((s.current_frame.headD []).getD y []).length := by
    rw [hcf]
    refine ⟨by simp, ?_, ?_⟩
    · simp only [List.headD_cons]
      rw [hlen]; omega
    · simp only [List.headD_cons]
      rw [hrow]; omega
  unfold execute_action
  rw [hs]
  simp only [hgid, ne_eq, not_true_eq_false, if_false, if_pos hbound, hcl, if_true]

/-- C1 (amended): once a session shows WIN, a region-toggle command (action 6
with in-range coordinates on a full 64x64 frame) observes and leaves
state WIN — whether it hits a region or falls on the crash-prone no-op
branch, the stored state stays WIN.  (The generic rule does not preserve
WIN; see the counterexample.) -/
theorem claim1_win_preserved_by_toggle (env : Env) (st : BackendState)
    (gid guid : String) (x y : Nat) (s : Session) (g : Grid)
    (hs : alookup st.sessions guid = some s)
    (hgid : s.game_id = gid)
    (hwin : s.state = "WIN")
    (hcf : s.current_frame = [g])
    (hlen : g.length = 64) (hrows : ∀ r ∈ g, r.length = 64)
    (hx : x ≤ 63) (hy : y ≤ 63) :
    ∀ s', alookup (execute_action env st gid guid 6 (some (x, y))).1.sessions guid
        = some s' → s'.state = "WIN" := by
  intro s' hs'
  have hall : ∀ b ∈ mkBlocks, anyCellInRange s.current_frame b = true :=
    fun b hb => anyCellInRange_full hcf hlen hrows hb
  have hrow : (g.getD y []).length = 64 :=
    hrows _ (getD_mem g y [] (by rw [hlen]; omega))
  have hbound : s.current_frame ≠ [] ∧
      y < (s.current_frame.headD []).length ∧
      x < ((s.current_frame.headD []).getD y []).length := by
    rw [hcf]
    refine ⟨by simp, ?_, ?_⟩
    · simp only [List.headD_cons]
      rw [hlen]; omega
    · simp only [List.headD_cons]
      rw [hrow]; omega
  rcases classify_click_cases mkBlocks s.current_frame x y hall with hcl | ⟨b, hcl⟩
  · unfold execute_action at hs'
    rw [hs] at hs'
    simp only [hgid, ne_eq, not_true_eq_false, if_false, if_pos hbound, hcl,
      if_true] at hs'
    rw [hs] at hs'
    obtain rfl := Option.some.inj hs'
    exact hwin
  · rw [execute_action_toggle env st gid guid x y s g b hs hgid hcf hlen hrows
      hx hy hcl] at hs'
    obtain ⟨s2, hl2, _, _, _, _, _, hstate2⟩ :=
      toggle_flow_session st gid guid s b 6
    rw [hl2] at hs'
    obtain rfl := Option.some.inj hs'
    rcases hstate2 with h | h
    · exact h
    · rw [h]; exact hwin

set_option maxRecDepth 10000 in
/-- C1 (amended) witness: the concrete WIN session of `stWon` stays WIN
under a further in-region ACTION6 click at (12, 12). -/
theorem claim1_win_preserved_by_toggle_witness :
    (alookup (execute_action envAll8 stWon "g1" "s1" 6 (some (12, 12))).1.sessions
      "s1").map Session.state = some "WIN" := by
  obtain ⟨s', hl⟩ : ∃ s',
      alookup (execute_action envAll8 stWon "g1" "s1" 6
        (some (12, 12))).1.sessions "s1" = some s' := ⟨_, rfl⟩
  have hrows : ∀ r ∈ toggleGrid blockA 0 (padGrid grid8), r.length = 64 := by
    intro r hr
    obtain ⟨r0, hr0, he⟩ := toggleGrid_rows_length blockA 0 (padGrid grid8) r hr
    rw [he]
    exact (by decide : ∀ r0 ∈ padGrid grid8, r0.length = 64) r0 hr0
  have h := claim1_win_preserved_by_toggle envAll8 stWon "g1" "s1" 12 12
    sessionWon (toggleGrid blockA 0 (padGrid grid8)) rfl rfl rfl rfl
    (by rw [toggleGrid_length]; decide) hrows (by decide) (by decide) s' hl
  rw [hl]
  simp [h]

/-- C6: clicking the same region twice in a row (action 6 at the same
coordinates, no other action between) leaves the session holding the
double-toggled grid, in which every region cell that held 8 or 9 is restored
and every other region cell ends at 8. -/
theorem claim6_double_toggle (env : Env) (st : BackendState) (gid guid : String)
    (x y yy xx : Nat) (s : Session) (g : Grid) (b : Block)
    (hs : alookup st.sessions guid = some s)
    (hgid : s.game_id = gid)
    (hcf : s.current_frame = [g])
    (hlen : g.length = 64) (hrows : ∀ r ∈ g, r.length = 64)
    (hx : x ≤ 63) (hy : y ≤ 63)
    (hcl : classify_click mkBlocks s.current_frame x y = .toggle b)
    (hcell : inBlockCell b yy xx = true) (hyy : yy < 64) (hxx : xx < 64) :
    ∀ s₂, alookup (execute_action env
        (execute_action env st gid guid 6 (some (x, y))).1 gid guid 6
        (some (x, y))).1.sessions guid = some s₂ →
      s₂.current_frame = [toggleGrid b 0 (toggleGrid b 0 g)] ∧
      ((toggleGrid b 0 (toggleGrid b 0 g)).getD yy []).getD xx 0 =
        (if (g.getD yy []).getD xx 0 = 8 ∨ (g.getD yy []).getD xx 0 = 9
         then (g.getD yy []).getD xx 0 else 8) := by
  rw [execute_action_toggle env st gid guid x y s g b hs hgid hcf hlen hrows
    hx hy hcl]
  obtain ⟨s1, hl1, hcf1, hgid1, _, _, _, _⟩ :=
    toggle_flow_session st gid guid s b 6
  have hcf1a : s1.current_frame = [toggleGrid b 0 g] := by
    rw [hcf1, hcf]
    rfl
  have hlen1 : (toggleGrid b 0 g).length = 64 := by
    rw [toggleGrid_length]
    exact hlen
  have hrows1 : ∀ r ∈ toggleGrid b 0 g, r.length = 64 := by
    intro r hr
    obtain ⟨r0, hr0, he⟩ := toggleGrid_rows_length b 0 g r hr
    rw [he]
    exact hrows r0 hr0
  have hcl1 : classify_click mkBlocks s1.current_frame x y = .toggle b := by
    rw [hcf1a, ← hcl]
    exact classify_click_congr mkBlocks _ _ x y fun b' hb' => by
      rw [anyCellInRange_full rfl hlen1 hrows1 hb',
        anyCellInRange_full hcf hlen hrows hb']
  have hgid1a : s1.game_id = gid := by rw [hgid1, hgid]
  rw [execute_action_toggle env (toggle_flow st gid guid s b 6).1 gid guid x y
    s1 (toggleGrid b 0 g) b hl1 hgid1a hcf1a hlen1 hrows1 hx hy hcl1]
  obtain ⟨s2c, hl2, hcf2, _, _, _, _, _⟩ :=
    toggle_flow_session (toggle_flow st gid guid s b 6).1 gid guid s1 b 6
  intro s₂ hs₂
  rw [hl2] at hs₂
  obtain rfl := Option.some.inj hs₂
  constructor
  · rw [hcf2, hcf1a]
    rfl
  · exact double_toggle_cell hlen hrows hcell hyy hxx

set_option maxRecDepth 10000 in
/-- C6 witness: double-clicking region 1 at (4, 10) on the all-8 grid leaves
the session holding the double-toggled grid whose cell (10, 4) is back to 8. -/
theorem claim6_double_toggle_witness :
    ((toggleGrid blockA 0 (toggleGrid blockA 0 (padGrid grid8))).getD 10 []).getD
      4 0 = 8 ∧
    (alookup (execute_action envAll8
        (execute_action envAll8 stReady8 "g1" "s1" 6 (some (4, 10))).1
        "g1" "s1" 6 (some (4, 10))).1.sessions "s1").map Session.current_frame =
      some [toggleGrid blockA 0 (toggleGrid blockA 0 (padGrid grid8))] := by
  obtain ⟨s₂, hl⟩ : ∃ s₂,
      alookup (execute_action envAll8
        (execute_action envAll8 stReady8 "g1" "s1" 6 (some (4, 10))).1
        "g1" "s1" 6 (some (4, 10))).1.sessions "s1" = some s₂ := ⟨_, rfl⟩
  have h := claim6_double_toggle envAll8 stReady8 "g1" "s1" 4 10 10 4
    sessionReady8 (padGrid grid8) blockA rfl rfl rfl (by decide) (by decide)
    (by decide) (by decide) (by decide) (by decide) (by decide) (by decide)
    s₂ hl
  constructor
  · rw [h.2]
    decide
  · rw [hl]
    simp [h.1]

set_option maxRecDepth 10000 in
/-- C5 witness: a partial match (the 64 first-row cells) yields state
NOT_FINISHED and score `matched * 100 / 4096` on the concrete stores. -/
theorem claim5_generic_scoring_witness :
    (alookup (execute_action envPartial stPartial "g1" "s1" 1 none).1.sessions
      "s1").map Session.state = some "NOT_FINISHED" ∧
    (alookup (execute_action envPartial stPartial "g1" "s1" 1 none).1.sessions
      "s1").map Session.score =
      some (correct_cells (padGrid grid8) (padGrid gridFinalRaw) * 100 / 4096) := by
  obtain ⟨s', hl⟩ : ∃ s',
      alookup (execute_action envPartial stPartial "g1" "s1" 1 none).1.sessions
        "s1" = some s' := ⟨_, rfl⟩
  have hpos : 0 < correct_cells (padGrid grid8) (padGrid gridFinalRaw) :=
    List.countP_pos_iff.mpr ⟨(0, 0), by decide, by decide⟩
  have hlt : correct_cells (padGrid grid8) (padGrid gridFinalRaw) < 4096 := by
    have hle : correct_cells (padGrid grid8) (padGrid gridFinalRaw) ≤ 4096 := by
      unfold correct_cells
      rw [← gridCoords_length]
      exact List.countP_le_length _
    rcases lt_or_eq_of_le hle with h | h
    · exact h
    · have hm := (correct_cells_full_iff (by decide) (by decide)).mp h
      rw [matches_final, List.all_eq_true] at hm
      have hbad := hm (1, 0) (by decide)
      simp only [decide_eq_true_eq] at hbad
      exact absurd hbad (by decide)
  have h := claim5_generic_scoring envPartial stPartial "g1" "s1" 1
    sessionPartial (padGrid grid8) (padGrid gridFinalRaw) scPartial gcPartial
    rfl rfl rfl (by decide) (by decide) rfl rfl rfl s' hl
  have h2 := h.2 hpos hlt
  rw [hl]
  simp [h2.1, h2.2]

/-- C9 witness: unknown game under an existing card, and the recomputed
summary for the game `stBase` did reset. -/
theorem claim9_filtered_get_witness :
    get_scorecard_for_game stBase "c1" "g2" = .error .gameNotFound ∧
    get_scorecard_for_game stBase "c1" "g1" =
      .ok { card_id := "c1", won := 0, played := 1, total_actions := 0,
            score := 0, cards := [("g1", gcBase)] } := by
  constructor
  · exact claim9_filtered_get.1 stBase "c1" "g2" scBase rfl rfl
  · exact claim9_filtered_get.2 stBase "c1" "g1" scBase gcBase rfl rfl

/-! ## The game-card list invariant (C8) -/

theorem alookup_ainsert_cases {α : Type} (l : List (String × α)) (k k' : String)
    (v v' : α) (h : alookup (ainsert l k v) k' = some v') :
    (k' = k ∧ v' = v) ∨ (k' ≠ k ∧ alookup l k' = some v') := by
  by_cases hk : k' = k
  · subst hk
    rw [alookup_ainsert_self] at h
    exact Or.inl ⟨rfl, (Option.some.inj h).symm⟩
  · rw [alookup_ainsert_ne l k k' v fun he => hk he.symm] at h
    exact Or.inr ⟨hk, h⟩

theorem allVals_insert {α : Type} (P : α → Prop) (l : List (String × α))
    (k : String) (v : α)
    (h : ∀ k' v', alookup l k' = some v' → P v') (hv : P v) :
    ∀ k' v', alookup (ainsert l k v) k' = some v' → P v' := by
  intro k' v' hl
  rcases alookup_ainsert_cases l k k' v v' hl with ⟨_, rfl⟩ | ⟨_, hl'⟩
  · exact hv
  · exact h k' v' hl'

theorem toggle_flow_preserves (st : BackendState) (gid guid : String)
    (session : Session) (b : Block) (aid : Nat) (h : cardsOk st) :
    cardsOk (toggle_flow st gid guid session b aid).1 := by
  unfold toggle_flow
  cases hsc : alookup st.scorecards session.card_id with
  | none => exact fun cid sc hl => h cid sc hl
  | some sc =>
    dsimp only
    cases hgc : alookup sc.cards gid with
    | none => exact fun cid sc' hl => h cid sc' hl
    | some gc =>
      dsimp only
      have hsc0 : scOk sc := h _ _ hsc
      have hgc0 : gameCardOk gc := hsc0 _ _ hgc
      intro cid sc' hl
      refine allVals_insert scOk st.scorecards session.card_id _
        (fun c s hcs => h c s hcs) ?_ cid sc' hl
      intro g c hgl
      refine allVals_insert gameCardOk sc.cards gid _
        (fun g' c' h' => hsc0 g' c' h') ?_ g c hgl
      by_cases hw : winConditionMet (toggleFrame session.current_frame b) = true
      · simp only [hw, if_true]
        exact ⟨by rw [updLast_length]; exact hgc0.1,
          by rw [updLast_length]; exact hgc0.2.1,
          by rw [updLast_length]; exact hgc0.2.2⟩
      · simp only [Bool.not_eq_true] at hw
        simp only [hw, Bool.false_eq_true, if_false]
        exact ⟨hgc0.1, hgc0.2.1, by rw [updLast_length]; exact hgc0.2.2⟩

theorem generic_flow_preserves (env : Env) (st : BackendState)
    (gid guid : String) (session : Session) (aid : Nat) (h : cardsOk st) :
    cardsOk (generic_flow env st gid guid session aid).1 := by
  unfold generic_flow
  cases hsc : alookup st.scorecards session.card_id with
  | none => exact fun cid sc hl => h cid sc hl
  | some sc =>
    dsimp only
    cases hgc : alookup sc.cards gid with
    | none => exact fun cid sc' hl => h cid sc' hl
    | some gc =>
      dsimp only
      have hsc0 : scOk sc := h _ _ hsc
      have hgc0 : gameCardOk gc := hsc0 _ _ hgc
      intro cid sc' hl
      refine allVals_insert scOk st.scorecards session.card_id _
        (fun c s hcs => h c s hcs) ?_ cid sc' hl
      intro g c hgl
      refine allVals_insert gameCardOk sc.cards gid _
        (fun g' c' h' => hsc0 g' c' h') ?_ g c hgl
      exact ⟨by rw [updLast_length]; exact hgc0.1,
        by rw [updLast_length]; exact hgc0.2.1,
        by rw [updLast_length]; exact hgc0.2.2⟩

theorem reset_core_preserves (env : Env) (st : BackendState)
    (gid cid guid : String) (h : cardsOk st) :
    cardsOk (reset_core env st gid cid guid).1 := by
  unfold reset_core
  dsimp only
  cases hsc : alookup st.scorecards cid with
  | none => exact fun c s hl => h c s hl
  | some sc =>
    dsimp only
    have hsc0 : scOk sc := h _ _ hsc
    cases hgcOpt : alookup sc.cards gid with
    | none =>
      simp only [hgcOpt, Option.isNone_none, if_true, alookup_ainsert_self]
      intro c s hl
      refine allVals_insert scOk st.scorecards cid _
        (fun c' s' h' => h c' s' h') ?_ c s hl
      intro g gc' hgl
      refine allVals_insert gameCardOk (ainsert sc.cards gid _) gid _
        (allVals_insert gameCardOk sc.cards gid _
          (fun g' c' h' => hsc0 g' c' h') ⟨rfl, rfl, rfl⟩) ?_ g gc' hgl
      exact ⟨by simp, by simp, by simp⟩
    | some gc =>
      simp only [hgcOpt, Option.isNone_some, Bool.false_eq_true, if_false]
      have hgc0 : gameCardOk gc := hsc0 _ _ hgcOpt
      intro c s hl
      refine allVals_insert scOk st.scorecards cid _
        (fun c' s' h' => h c' s' h') ?_ c s hl
      intro g gc' hgl
      refine allVals_insert gameCardOk sc.cards gid _
        (fun g' c' h' => hsc0 g' c' h') ?_ g gc' hgl
      refine ⟨?_, ?_, ?_⟩
      · rw [List.length_append, hgc0.1]
        rfl
      · rw [List.length_append, hgc0.2.1]
        rfl
      · rw [List.length_append, hgc0.2.2]
        rfl

theorem reset_game_preserves (env : Env) (st : BackendState)
    (gid cid : String) (guidOpt : Option String) (fresh : String)
    (h : cardsOk st) :
    cardsOk (reset_game env st gid cid guidOpt fresh).1 := by
  unfold reset_game
  split
  · exact h
  · split
    · exact h
    · cases guidOpt with
      | none => exact reset_core_preserves env st gid cid fresh h
      | some g =>
        dsimp only
        split
        · exact h
        · exact reset_core_preserves env st gid cid g h

theorem execute_action_preserves (env : Env) (st : BackendState)
    (gid guid : String) (aid : Nat) (dat : Option (Nat × Nat))
    (h : cardsOk st) :
    cardsOk (execute_action env st gid guid aid dat).1 := by
  unfold execute_action
  cases hs : alookup st.sessions guid with
  | none => exact h
  | some s =>
    dsimp only
    split
    · exact h
    · cases dat with
      | none => exact generic_flow_preserves env st gid guid s aid h
      | some xy =>
        obtain ⟨x, y⟩ := xy
        dsimp only
        split
        · split
          · split
            · exact toggle_flow_preserves st gid guid s _ aid h
            · exact h
            · exact generic_flow_preserves env st gid guid s aid h
          · exact generic_flow_preserves env st gid guid s aid h
        · exact generic_flow_preserves env st gid guid s aid h

theorem stepCommand_preserves (env : Env) (st : BackendState) (c : Command)
    (h : cardsOk st) : cardsOk (stepCommand env st c) := by
  cases c with
  | openCard cid =>
    unfold stepCommand open_scorecard
    dsimp only
    intro c' s' hl
    refine allVals_insert scOk st.scorecards cid _
      (fun c'' s'' h'' => h c'' s'' h'') ?_ c' s' hl
    intro g gc hg
    simp [alookup] at hg
  | reset gid cid g f => exact reset_game_preserves env st gid cid g f h
  | act gid g aid d => exact execute_action_preserves env st gid g aid d h

/-- C8: in every state reachable by any command sequence, every game card of
every scorecard has its three per-play lists of equal length
`total_plays` — each reset appends one entry to all three and bumps
`total_plays`, and each action only rewrites last entries. -/
theorem claim8_gamecard_lists_invariant (env : Env) (cmds : List Command) :
    ∀ cid sc, alookup (runCommands env cmds).scorecards cid = some sc →
      ∀ gid gc, alookup sc.cards gid = some gc →
        gc.scores.length = gc.total_plays ∧
        gc.states.length = gc.total_plays ∧
        gc.actions.length = gc.total_plays := by
  have hgen : ∀ (l : List Command) (st : BackendState), cardsOk st →
      cardsOk (l.foldl (stepCommand env) st) := by
    intro l
    induction l with
    | nil => exact fun st h => h
    | cons c t ih => exact fun st h => ih _ (stepCommand_preserves env st c h)
  have h : cardsOk (runCommands env cmds) := by
    unfold runCommands
    refine hgen cmds initState ?_
    intro cid sc hl
    simp [initState, alookup] at hl
  exact fun cid sc hsc gid gc hgc => h cid sc hsc gid gc hgc

/-- C8 witness: the invariant holds for the concrete card of `stBase`. -/
theorem claim8_gamecard_lists_invariant_witness :
    gcBase.scores.length = gcBase.total_plays ∧
    gcBase.states.length = gcBase.total_plays ∧
    gcBase.actions.length = gcBase.total_plays :=
  claim8_gamecard_lists_invariant envNoLevels
    [.openCard "c1", .reset "g1" "c1" none "s1"] "c1" scBase rfl "g1" gcBase rfl

end ArcEngine
